import Mathlib

/-!
Verification of the OpenEPaperLink BLE upload protocol implementation
(`ble_display.py` / `writeimg.py`).

Bytes are modelled as `Nat` values; byte strings as `List Nat`.  Python's
`x & 0xFF` on a nonnegative integer is `x % 256`, `x & 0xFFFF` is
`x % 65536`.  `struct.pack` fields are modelled by explicit little-endian
byte lists.  The asynchronous transfer engine is modelled as a pure state
machine driven by a scripted device stub: a queue of pending notifications
plus a script of device-initiated notifications, with an optional reaction
function describing how the stub replies to host commands.  Loops that are
unbounded in the source (`while True`) take an explicit fuel parameter and
report fuel exhaustion distinctly from every behaviour of the source.
-/

namespace EPaper

/-! ## Protocol constants (`ble_display.py` lines 17-41) -/

def CMD_ACK_READY : Nat := 0x0002
def CMD_TRANSFER_COMPLETE : Nat := 0x0003
def CMD_START_DATA_TRANSFER : Nat := 0x0064
def CMD_SEND_BLOCK_PART : Nat := 0x0065

def RSP_COMMAND_ACK : Nat := 0x0063
def RSP_PART_ERROR : Nat := 0x00C4
def RSP_PART_ACK : Nat := 0x00C5
def RSP_BLOCK_REQUEST : Nat := 0x00C6
def RSP_UPLOAD_COMPLETE : Nat := 0x00C7
def RSP_DATA_PRESENT : Nat := 0x00C8
def RSP_ERROR : Nat := 0xFFFF

def BLOCK_DATA_SIZE : Nat := 4096
def BLOCK_PART_DATA_SIZE : Nat := 230
def PARTS_PER_BLOCK : Nat := 18
def DEFAULT_DATA_TYPE : Nat := 0x21

/-! ## Wire codec (`ble_display.py` lines 44-101) -/

/-- Little-endian encoding of `v` on `n` bytes, as produced by
`struct.pack` for the fields of the protocol structures. -/
def leBytes : Nat → Nat → List Nat
  | 0, _ => []
  | n + 1, v => v % 256 :: leBytes n (v / 256)

/-- Value of a byte list read back as a little-endian integer. -/
def fromLE (bytes : List Nat) : Nat :=
  bytes.foldr (fun b acc => b + 256 * acc) 0

/-- `cmd_packet`: 2-byte big-endian command id followed by the payload
(`struct.pack(">H", cmd_id) + payload`). -/
def cmd_packet (cmd_id : Nat) (payload : List Nat) : List Nat :=
  (cmd_id >>> 8) % 256 :: cmd_id % 256 :: payload

/-- `sum8`: `sum(data) & 0xFF`. -/
def sum8 (data : List Nat) : Nat := data.sum % 256

/-- `sum16`: `sum(data) & 0xFFFF`. -/
def sum16 (data : List Nat) : Nat := data.sum % 65536

/-- `parse_cmd`: `None`/too-short frames give `(None, b"")`, otherwise the
first two bytes big-endian as the id and the rest as the payload. -/
def parse_cmd (notification : Option (List Nat)) : Option Nat × List Nat :=
  match notification with
  | some (b0 :: b1 :: rest) => (some ((b0 <<< 8) ||| b1), rest)
  | _ => (none, [])

/-- One shift-and-conditional-xor round of the reflected CRC-32
(polynomial 0xEDB88320), as computed by `binascii.crc32`. -/
def crc32_step (c : Nat) : Nat :=
  if c % 2 = 1 then (c / 2) ^^^ 0xEDB88320 else c / 2

/-- Fold one input byte into the CRC-32 state: xor it in, then run eight
bit rounds. -/
def crc32_update (c b : Nat) : Nat :=
  crc32_step (crc32_step (crc32_step (crc32_step
    (crc32_step (crc32_step (crc32_step (crc32_step (c ^^^ b % 256))))))))

/-- `binascii.crc32(data)`: standard CRC-32 with initial value and final
xor 0xFFFFFFFF. -/
def crc32 (data : List Nat) : Nat :=
  (data.foldl crc32_update 0xFFFFFFFF) ^^^ 0xFFFFFFFF

/-- `make_avail_data_info`:
`struct.pack("<BQIBBH", 0xFF, crc32, data_size, data_type, 0x00, 0x0000)`. -/
def make_avail_data_info (image_data : List Nat) (data_type : Nat) : List Nat :=
  leBytes 1 0xFF ++ leBytes 8 (crc32 image_data) ++ leBytes 4 image_data.length ++
    leBytes 1 data_type ++ leBytes 1 0 ++ leBytes 2 0

/-- `requested_parts_from_mask`: collect, in increasing order of
`part_id` over `range(PARTS_PER_BLOCK)`, the part ids whose mask bit is
set; a byte index beyond the end of the mask counts as unset.  The two
nested `if`s of the Python loop are combined into one conjunction. -/
def requested_parts_from_mask (mask_bytes : List Nat) : List Nat :=
  (List.range PARTS_PER_BLOCK).foldl
    (fun parts part_id =>
      if part_id / 8 < mask_bytes.length ∧
          (mask_bytes.getD (part_id / 8) 0 >>> (part_id % 8)) &&& 1 = 1 then
        parts ++ [part_id]
      else parts)
    []

/-- The wrapped block built inside `build_block_part`: the 4096-byte slice
of the image at `block_id * 4096` (clamped to the image end), prefixed by
`struct.pack("<HH", len(block_payload), sum16(block_payload))`. -/
def wrap_block (image_data : List Nat) (block_id : Nat) : List Nat :=
  let block_start := block_id * BLOCK_DATA_SIZE
  let block_payload := (image_data.drop block_start).take BLOCK_DATA_SIZE
  leBytes 2 block_payload.length ++ leBytes 2 (sum16 block_payload) ++ block_payload

/-- `build_block_part`: slice the `part_id`-th 230-byte window out of the
wrapped block, zero-pad it on the right to 230 bytes, prefix
`block_id & 0xFF` and `part_id & 0xFF`, and prefix the `sum8` checksum of
those 232 bytes. -/
def build_block_part (image_data : List Nat) (block_id part_id : Nat) : List Nat :=
  let wrapped := wrap_block image_data block_id
  let part_start := part_id * BLOCK_PART_DATA_SIZE
  let part_cut := (wrapped.drop part_start).take BLOCK_PART_DATA_SIZE
  let part_data := part_cut ++ List.replicate (BLOCK_PART_DATA_SIZE - part_cut.length) 0
  let block_part_no_crc := block_id % 256 :: part_id % 256 :: part_data
  sum8 block_part_no_crc :: block_part_no_crc

/-- `int(math.ceil(len(image_data) / BLOCK_DATA_SIZE))`, as exact natural
ceiling division. -/
def total_blocks (image_data : List Nat) : Nat :=
  (image_data.length + BLOCK_DATA_SIZE - 1) / BLOCK_DATA_SIZE

/-! ## Basic codec lemmas -/

lemma leBytes_length (n v : Nat) : (leBytes n v).length = n := by
  induction n generalizing v with
  | zero => rfl
  | succ n ih => simp [leBytes, ih]

lemma fromLE_leBytes (n v : Nat) (h : v < 2 ^ (8 * n)) : fromLE (leBytes n v) = v := by
  induction n generalizing v with
  | zero => simp at h; simp [leBytes, fromLE, h]
  | succ n ih =>
    have hdiv : v / 256 < 2 ^ (8 * n) := by
      rw [Nat.div_lt_iff_lt_mul (by norm_num)]
      calc v < 2 ^ (8 * (n + 1)) := h
        _ = 2 ^ (8 * n) * 256 := by ring
    simp only [leBytes, fromLE, List.foldr_cons]
    have := ih (v / 256) hdiv
    simp only [fromLE] at this
    rw [this]
    omega

lemma build_block_part_part_data_length (image_data : List Nat) (block_id part_id : Nat) :
    (((wrap_block image_data block_id).drop (part_id * BLOCK_PART_DATA_SIZE)).take
        BLOCK_PART_DATA_SIZE).length ≤ BLOCK_PART_DATA_SIZE := by
  simp [List.length_take]

/-- C7 helper: the frame is the checksum byte consed onto the 232
checksummed bytes. -/
lemma build_block_part_eq (image_data : List Nat) (block_id part_id : Nat) :
    build_block_part image_data block_id part_id =
      sum8 (block_id % 256 :: part_id % 256 ::
          (((wrap_block image_data block_id).drop (part_id * BLOCK_PART_DATA_SIZE)).take
              BLOCK_PART_DATA_SIZE ++
            List.replicate
              (BLOCK_PART_DATA_SIZE -
                (((wrap_block image_data block_id).drop
                    (part_id * BLOCK_PART_DATA_SIZE)).take BLOCK_PART_DATA_SIZE).length)
              0)) ::
        block_id % 256 :: part_id % 256 ::
          (((wrap_block image_data block_id).drop (part_id * BLOCK_PART_DATA_SIZE)).take
              BLOCK_PART_DATA_SIZE ++
            List.replicate
              (BLOCK_PART_DATA_SIZE -
                (((wrap_block image_data block_id).drop
                    (part_id * BLOCK_PART_DATA_SIZE)).take BLOCK_PART_DATA_SIZE).length)
              0) := rfl

/-- C7: for every image, block id and part id in [0,17], the encoded
block part is exactly 233 bytes and its first byte is the modulo-256 sum
of the 232 bytes that follow it, including for zero-padded final parts. -/
theorem build_block_part_length_and_checksum (image_data : List Nat)
    (block_id part_id : Nat) (hp : part_id ≤ 17) :
    (build_block_part image_data block_id part_id).length = 233 ∧
    (build_block_part image_data block_id part_id).getD 0 0 =
      sum8 ((build_block_part image_data block_id part_id).drop 1) ∧
    ((build_block_part image_data block_id part_id).drop 1).length = 232 := by
  have hcut := build_block_part_part_data_length image_data block_id part_id
  refine ⟨?_, ?_, ?_⟩
  · rw [build_block_part_eq]
    simp only [List.length_cons, List.length_append, List.length_replicate]
    simp only [BLOCK_PART_DATA_SIZE] at hcut ⊢
    omega
  · rw [build_block_part_eq]
    rfl
  · rw [build_block_part_eq]
    simp only [List.drop_one, List.tail_cons, List.length_cons, List.length_append,
      List.length_replicate]
    simp only [BLOCK_PART_DATA_SIZE] at hcut ⊢
    omega

/-- C7 witness at a concrete image, block and part. -/
theorem build_block_part_length_and_checksum_witness :
    (build_block_part [1, 2, 3] 0 17).length = 233 ∧
    (build_block_part [1, 2, 3] 0 17).getD 0 0 =
      sum8 ((build_block_part [1, 2, 3] 0 17).drop 1) ∧
    ((build_block_part [1, 2, 3] 0 17).drop 1).length = 232 :=
  build_block_part_length_and_checksum [1, 2, 3] 0 17 (by decide)

/-- C10: block-part encoding is total: for every image, block id and part
id whatsoever (including part ids outside [0,17]) the frame is 233 bytes,
and whenever the 230-byte window starts at or past the end of the wrapped
block the fragment is 230 zero bytes. -/
theorem build_block_part_total (image_data : List Nat) (block_id part_id : Nat) :
    (build_block_part image_data block_id part_id).length = 233 ∧
    ((wrap_block image_data block_id).length ≤ part_id * BLOCK_PART_DATA_SIZE →
      (build_block_part image_data block_id part_id).drop 3 =
        List.replicate BLOCK_PART_DATA_SIZE 0) := by
  have hcut := build_block_part_part_data_length image_data block_id part_id
  constructor
  · rw [build_block_part_eq]
    simp only [List.length_cons, List.length_append, List.length_replicate]
    simp only [BLOCK_PART_DATA_SIZE] at hcut ⊢
    omega
  · intro h
    rw [build_block_part_eq]
    have hnil : (wrap_block image_data block_id).drop (part_id * BLOCK_PART_DATA_SIZE) = [] :=
      List.drop_eq_nil_of_le h
    simp [hnil]

/-- C10 witness: a part window entirely past the wrapped block (part id
18, outside the documented range) yields an all-zero fragment. -/
theorem build_block_part_total_witness :
    (wrap_block [1, 2, 3] 0).length ≤ 18 * BLOCK_PART_DATA_SIZE ∧
    (build_block_part [1, 2, 3] 0 18).length = 233 ∧
    (build_block_part [1, 2, 3] 0 18).drop 3 = List.replicate BLOCK_PART_DATA_SIZE 0 :=
  ⟨by decide, (build_block_part_total [1, 2, 3] 0 18).1,
    (build_block_part_total [1, 2, 3] 0 18).2 (by decide)⟩

/-! ## CRC32 bound and announcement layout (C4) -/

lemma crc32_step_lt (c : Nat) (h : c < 2 ^ 32) : crc32_step c < 2 ^ 32 := by
  unfold crc32_step
  split
  · exact Nat.xor_lt_two_pow (by omega) (by norm_num)
  · omega

lemma crc32_update_lt (c b : Nat) (h : c < 2 ^ 32) : crc32_update c b < 2 ^ 32 := by
  unfold crc32_update
  repeat apply crc32_step_lt
  exact Nat.xor_lt_two_pow h (lt_of_lt_of_le (Nat.mod_lt _ (by norm_num)) (by norm_num))

lemma crc32_foldl_lt (data : List Nat) :
    ∀ c, c < 2 ^ 32 → data.foldl crc32_update c < 2 ^ 32 := by
  induction data with
  | nil => intro c h; simpa using h
  | cons b rest ih =>
    intro c h
    exact ih _ (crc32_update_lt c b h)

lemma crc32_lt (data : List Nat) : crc32 data < 2 ^ 32 := by
  unfold crc32
  exact Nat.xor_lt_two_pow (crc32_foldl_lt data _ (by norm_num)) (by norm_num)

lemma leBytes_add (m n v : Nat) :
    leBytes (m + n) v = leBytes m v ++ leBytes n (v / 256 ^ m) := by
  induction m generalizing v with
  | zero => simp [leBytes]
  | succ m ih =>
    have : m + 1 + n = (m + n) + 1 := by omega
    rw [this]
    simp only [leBytes, ih (v / 256), List.cons_append]
    congr 2
    rw [Nat.div_div_eq_div_mul]
    congr 1
    ring

/-- The upper four bytes of the 8-byte CRC slot are always zero, because
a CRC-32 value is below 2^32. -/
lemma leBytes_eight_crc (image_data : List Nat) :
    leBytes 8 (crc32 image_data) = leBytes 4 (crc32 image_data) ++ [0, 0, 0, 0] := by
  have hz : crc32 image_data / 256 ^ 4 = 0 := by
    have h := crc32_lt image_data
    exact Nat.div_eq_of_lt (by norm_num at h ⊢; omega)
  rw [show (8 : Nat) = 4 + 4 from rfl, leBytes_add, hz]
  rfl

/-- The announcement in fully explicit form, with the 8-byte CRC slot
split into its 4 live bytes and its 4 always-zero upper bytes. -/
lemma make_avail_data_info_eq (image_data : List Nat) (data_type : Nat)
    (hdt : data_type < 256) :
    make_avail_data_info image_data data_type =
      255 :: (leBytes 4 (crc32 image_data) ++ ([0, 0, 0, 0] ++
        (leBytes 4 image_data.length ++ [data_type, 0, 0, 0]))) := by
  unfold make_avail_data_info
  rw [leBytes_eight_crc]
  simp [leBytes, Nat.mod_eq_of_lt hdt]

/-- C4 counterexample: at the empty image with data type 0x21, the
announcement does not end with exactly 2 reserved bytes after the
data-type byte at offset 13 — three bytes follow it. -/
theorem make_avail_data_info_two_reserved_false :
    ¬ ((make_avail_data_info [] 0x21).length = 17 ∧
       (make_avail_data_info [] 0x21).getD 0 0 = 0xFF ∧
       fromLE (((make_avail_data_info [] 0x21).drop 1).take 8) = crc32 [] ∧
       (((make_avail_data_info [] 0x21).drop 5).take 4) = [0, 0, 0, 0] ∧
       fromLE (((make_avail_data_info [] 0x21).drop 9).take 4) = 0 ∧
       (make_avail_data_info [] 0x21).drop 13 = [0x21, 0, 0] ∧
       (make_avail_data_info [] 0x21).drop 14 = [0, 0]) := by
  decide

/-- C4 amended: for every image of length below 2^32 and every data-type
byte, the announcement is exactly 17 bytes: marker 0xFF at byte 0, the
CRC32 of the whole image little-endian in the 8-byte slot at bytes 1..8
with the upper four bytes zero, the image length little-endian at bytes
9..12, the data-type tag at byte 13, and exactly THREE trailing zero
bytes (14..16) rather than the two the claim states. -/
theorem make_avail_data_info_layout (image_data : List Nat) (data_type : Nat)
    (hlen : image_data.length < 2 ^ 32) (hdt : data_type < 256) :
    (make_avail_data_info image_data data_type).length = 17 ∧
    (make_avail_data_info image_data data_type).getD 0 0 = 0xFF ∧
    ((make_avail_data_info image_data data_type).drop 1).take 8 =
      leBytes 8 (crc32 image_data) ∧
    fromLE (((make_avail_data_info image_data data_type).drop 1).take 8) =
      crc32 image_data ∧
    ((make_avail_data_info image_data data_type).drop 5).take 4 = [0, 0, 0, 0] ∧
    fromLE (((make_avail_data_info image_data data_type).drop 9).take 4) =
      image_data.length ∧
    (make_avail_data_info image_data data_type).drop 13 = [data_type, 0, 0, 0] ∧
    (make_avail_data_info image_data data_type).drop 14 = [0, 0, 0] := by
  have hc := crc32_lt image_data
  rw [make_avail_data_info_eq image_data data_type hdt]
  have hc4 : (leBytes 4 (crc32 image_data)).length = 4 := leBytes_length 4 _
  have hn4 : (leBytes 4 image_data.length).length = 4 := leBytes_length 4 _
  refine ⟨?_, ?_, ?_, ?_, ?_, ?_, ?_, ?_⟩
  · simp [hc4, hn4]
  · simp
  · simp only [leBytes_eight_crc, leBytes, List.drop_succ_cons, List.drop_zero, fromLE]
    norm_num at hc ⊢
    omega
  · simp only [leBytes_eight_crc, leBytes, List.drop_succ_cons, List.drop_zero, fromLE]
    norm_num at hc ⊢
    omega
  · simp only [leBytes, List.drop_succ_cons, List.drop_zero]
    simp
  · simp only [leBytes, List.drop_succ_cons, List.drop_zero, fromLE]
    norm_num at hlen ⊢
    omega
  · simp only [leBytes, List.drop_succ_cons, List.drop_zero]
    simp
  · simp only [leBytes, List.drop_succ_cons, List.drop_zero]
    simp

/-- C4 amended witness at a concrete image and data type. -/
theorem make_avail_data_info_layout_witness :
    ([1, 2, 3] : List Nat).length < 2 ^ 32 ∧ (0x21 : Nat) < 256 ∧
    (make_avail_data_info [1, 2, 3] 0x21).length = 17 ∧
    (make_avail_data_info [1, 2, 3] 0x21).drop 13 = [0x21, 0, 0, 0] :=
  ⟨by norm_num, by norm_num,
    (make_avail_data_info_layout [1, 2, 3] 0x21 (by norm_num) (by norm_num)).1,
    (make_avail_data_info_layout [1, 2, 3] 0x21 (by norm_num) (by norm_num)).2.2.2.2.2.2.1⟩

/-! ## Requested-parts mask decoding (C8) -/

lemma foldl_collect (p : Nat → Prop) [DecidablePred p] :
    ∀ (xs acc : List Nat),
      xs.foldl (fun a x => if p x then a ++ [x] else a) acc =
        acc ++ xs.filter (fun x => decide (p x))
  | [], acc => by simp
  | x :: xs, acc => by
    by_cases h : p x <;>
      simp [List.foldl_cons, h, foldl_collect p xs, List.filter_cons]

lemma requested_parts_from_mask_eq_filter (mask_bytes : List Nat) :
    requested_parts_from_mask mask_bytes =
      (List.range PARTS_PER_BLOCK).filter fun part_id =>
        decide (part_id / 8 < mask_bytes.length ∧
          (mask_bytes.getD (part_id / 8) 0 >>> (part_id % 8)) &&& 1 = 1) := by
  unfold requested_parts_from_mask
  rw [foldl_collect]
  simp

/-- C8: decoding a mask of any length yields exactly the ascending part
indices below 18 whose bit (index mod 8) is set in mask byte
(index div 8), with indices whose byte is absent from a short mask
treated as unset; the two example masks decode as the spec states. -/
theorem requested_parts_from_mask_spec (mask_bytes : List Nat) :
    (∀ i, i ∈ requested_parts_from_mask mask_bytes ↔
      (i < PARTS_PER_BLOCK ∧ i / 8 < mask_bytes.length ∧
        (mask_bytes.getD (i / 8) 0 >>> (i % 8)) &&& 1 = 1)) ∧
    List.Pairwise (· < ·) (requested_parts_from_mask mask_bytes) ∧
    requested_parts_from_mask [5, 0, 0, 0, 0, 0] = [0, 2] ∧
    requested_parts_from_mask [255, 255, 255, 255, 255, 255] =
      [0, 1, 2, 3, 4, 5, 6, 7, 8, 9, 10, 11, 12, 13, 14, 15, 16, 17] := by
  refine ⟨?_, ?_, by decide, by decide⟩
  · intro i
    rw [requested_parts_from_mask_eq_filter]
    simp only [List.mem_filter, List.mem_range, decide_eq_true_eq]
  · rw [requested_parts_from_mask_eq_filter]
    exact (List.pairwise_lt_range PARTS_PER_BLOCK).sublist (List.filter_sublist _)

/-! ## Wire block-id byte (C9) -/

/-- C9: the frame carries `block_id % 256` at offset 1 and
`part_id % 256` at offset 2 while the fragment is sliced from the block
at image offset `block_id * 4096`; consequently any block id that differs
by a multiple of 256 produces the same wire block-id byte, so blocks
beyond 255 are not addressable unambiguously. -/
theorem build_block_part_wire_ids (image_data : List Nat) (block_id part_id k : Nat)
    (hk : 256 * k ≤ block_id) :
    (build_block_part image_data block_id part_id).getD 1 0 = block_id % 256 ∧
    (build_block_part image_data block_id part_id).getD 2 0 = part_id % 256 ∧
    (build_block_part image_data (block_id - 256 * k) part_id).getD 1 0 =
      (build_block_part image_data block_id part_id).getD 1 0 ∧
    (build_block_part image_data block_id part_id).drop 3 =
      ((wrap_block image_data block_id).drop (part_id * BLOCK_PART_DATA_SIZE)).take
          BLOCK_PART_DATA_SIZE ++
        List.replicate
          (BLOCK_PART_DATA_SIZE -
            (((wrap_block image_data block_id).drop
                (part_id * BLOCK_PART_DATA_SIZE)).take BLOCK_PART_DATA_SIZE).length)
          0 := by
  refine ⟨by rw [build_block_part_eq]; simp, by rw [build_block_part_eq]; simp, ?_,
    by rw [build_block_part_eq]; simp⟩
  rw [build_block_part_eq, build_block_part_eq]
  simp only [List.getD_cons_succ, List.getD_cons_zero]
  omega

/-- C9 witness: block 256 aliases block 0 on the wire. -/
theorem build_block_part_wire_ids_witness :
    256 * 1 ≤ 256 ∧
    (build_block_part [7] 256 0).getD 1 0 = 256 % 256 ∧
    (build_block_part [7] (256 - 256 * 1) 0).getD 1 0 =
      (build_block_part [7] 256 0).getD 1 0 :=
  ⟨by norm_num, (build_block_part_wire_ids [7] 256 0 1 (by norm_num)).1,
    (build_block_part_wire_ids [7] 256 0 1 (by norm_num)).2.2.1⟩

/-! ## Transfer engine (`ble_display.py` lines 146-311, equal to
`writeimg.py` `send_part_wait_ack` / `wait_ready_ack` / `upload_image`)

The transport is modelled by a scripted device stub: `DevState.pending`
is the FIFO of notifications already produced by the stub, and
`DevState.script` is the list of device-initiated notifications the stub
delivers, one at a time, whenever the host waits with nothing pending.
A `Reaction` says which notifications the stub enqueues in reply to each
host command write.  `wait_notification` timing out is modelled by the
stub having nothing left to deliver. -/

abbrev Notif := List Nat

abbrev Reaction := Nat → List Nat → List Notif

structure DevState where
  pending : List Notif
  script : List Notif
deriving DecidableEq

structure EngineSt where
  dev : DevState
  log : List (Nat × List Nat)
deriving DecidableEq

/-- Errors of the transfer engine.  The source raises `RuntimeError` in
all cases; the constructors separate the distinct raise sites:
`invalidBlockRequest` ("Invalid BlockRequest payload") and
`outOfRangeBlock` ("Device requested out-of-range block %d") are the
protocol violations, `protocolError` is "Device returned protocol error
(0xFFFF)", `notificationTimeout` models `asyncio.wait_for` expiring, and
`outOfFuel` is only an artifact of the bounded model (never produced in
any theorem below). -/
inductive UploadErr where
  | invalidBlockRequest
  | outOfRangeBlock (block_id : Nat)
  | protocolError
  | notificationTimeout
  | outOfFuel
deriving DecidableEq

/-- The host waits for a notification: pending replies first, then the
next scripted device event, else timeout. -/
def devWait (d : DevState) : Option (Notif × DevState) :=
  match d.pending with
  | n :: rest => some (n, { d with pending := rest })
  | [] =>
    match d.script with
    | n :: rest => some (n, { d with script := rest })
    | [] => none

/-- `send_cmd`: write `cmd_packet cmd_id payload` to the characteristic.
The write is recorded in the log and the stub's reaction is queued. -/
def sendCmd (react : Reaction) (s : EngineSt) (cmd_id : Nat) (payload : List Nat) :
    EngineSt :=
  { dev := { s.dev with pending := s.dev.pending ++ react cmd_id payload },
    log := s.log ++ [(cmd_id, payload)] }

/-- The notification-consuming loop inside `_send_part_wait_ack`:
PART_ACK succeeds, PART_ERROR re-sends the identical frame and keeps
waiting, COMMAND_ACK is ignored, BLOCK_REQUEST / UPLOAD_COMPLETE /
DATA_PRESENT are returned as a deferred event, RSP_ERROR raises, and
anything else is logged and ignored. -/
def partAckLoop (react : Reaction) (frame : List Nat) (fuel : Nat) (s : EngineSt) :
    Except UploadErr (Option Notif) × EngineSt :=
  if h : fuel = 0 then (.error .outOfFuel, s)
  else
    match devWait s.dev with
    | none => (.error .notificationTimeout, s)
    | some (raw, d) =>
      let s1 : EngineSt := { s with dev := d }
      let rsp := (parse_cmd (some raw)).1
      if rsp = some RSP_PART_ACK then (.ok none, s1)
      else if rsp = some RSP_PART_ERROR then
        partAckLoop react frame (fuel - 1) (sendCmd react s1 CMD_SEND_BLOCK_PART frame)
      else if rsp = some RSP_COMMAND_ACK then partAckLoop react frame (fuel - 1) s1
      else if rsp = some RSP_BLOCK_REQUEST ∨ rsp = some RSP_UPLOAD_COMPLETE ∨
          rsp = some RSP_DATA_PRESENT then
        (.ok (some raw), s1)
      else if rsp = some RSP_ERROR then (.error .protocolError, s1)
      else partAckLoop react frame (fuel - 1) s1
termination_by fuel
decreasing_by all_goals omega

/-- `_send_part_wait_ack`: send SEND_BLOCK_PART with the frame, then wait
for its acknowledgment. -/
def send_part_wait_ack (react : Reaction) (frame : List Nat) (fuel : Nat)
    (s : EngineSt) : Except UploadErr (Option Notif) × EngineSt :=
  partAckLoop react frame fuel (sendCmd react s CMD_SEND_BLOCK_PART frame)

/-- `_wait_ready_ack`: wait for COMMAND_ACK after ACK_READY; stale
PART_ACK / PART_ERROR are skipped, BLOCK_REQUEST / UPLOAD_COMPLETE /
DATA_PRESENT are returned as a deferred event, RSP_ERROR raises, and
anything else is logged and ignored. -/
def readyAckLoop (react : Reaction) (fuel : Nat) (s : EngineSt) :
    Except UploadErr (Option Notif) × EngineSt :=
  if h : fuel = 0 then (.error .outOfFuel, s)
  else
    match devWait s.dev with
    | none => (.error .notificationTimeout, s)
    | some (raw, d) =>
      let s1 : EngineSt := { s with dev := d }
      let rsp := (parse_cmd (some raw)).1
      if rsp = some RSP_COMMAND_ACK then (.ok none, s1)
      else if rsp = some RSP_BLOCK_REQUEST ∨ rsp = some RSP_UPLOAD_COMPLETE ∨
          rsp = some RSP_DATA_PRESENT then
        (.ok (some raw), s1)
      else if rsp = some RSP_PART_ACK ∨ rsp = some RSP_PART_ERROR then
        readyAckLoop react (fuel - 1) s1
      else if rsp = some RSP_ERROR then (.error .protocolError, s1)
      else readyAckLoop react (fuel - 1) s1
termination_by fuel
decreasing_by all_goals omega

/-- The `for part_id in req_parts` loop of `upload`: build and send each
requested part in order, stopping early when a part exchange returns a
deferred event. -/
def sendParts (react : Reaction) (image_data : List Nat) (block_id : Nat) :
    List Nat → Nat → EngineSt → Except UploadErr (Option Notif) × EngineSt
  | [], _, s => (.ok none, s)
  | part_id :: rest, fuel, s =>
    match send_part_wait_ack react (build_block_part image_data block_id part_id) fuel s with
    | (.error e, s1) => (.error e, s1)
    | (.ok (some raw), s1) => (.ok (some raw), s1)
    | (.ok none, s1) => sendParts react image_data block_id rest fuel s1

/-- The main transfer loop of `upload` (`while not completed`), with the
pending deferred event threaded explicitly. -/
def uploadLoop (react : Reaction) (image_data : List Nat) (tb : Nat) (fuel : Nat)
    (pend : Option Notif) (s : EngineSt) : Except UploadErr Unit × EngineSt :=
  if h : fuel = 0 then (.error .outOfFuel, s)
  else
    let next : Option (Notif × EngineSt) :=
      match pend with
      | some raw => some (raw, s)
      | none =>
        match devWait s.dev with
        | none => none
        | some (raw, d) => some (raw, { s with dev := d })
    match next with
    | none => (.error .notificationTimeout, s)
    | some (raw, s1) =>
      let pr := parse_cmd (some raw)
      let rsp := pr.1
      let rsp_payload := pr.2
      if rsp = some RSP_BLOCK_REQUEST then
        if rsp_payload.length < 17 then (.error .invalidBlockRequest, s1)
        else
          let req_block_id := rsp_payload.getD 9 0
          let req_parts := requested_parts_from_mask ((rsp_payload.drop 11).take 6)
          if tb ≤ req_block_id then (.error (.outOfRangeBlock req_block_id), s1)
          else
            match readyAckLoop react (fuel - 1) (sendCmd react s1 CMD_ACK_READY []) with
            | (.error e, s2) => (.error e, s2)
            | (.ok (some raw1), s2) =>
              uploadLoop react image_data tb (fuel - 1) (some raw1) s2
            | (.ok none, s2) =>
              match sendParts react image_data req_block_id req_parts (fuel - 1) s2 with
              | (.error e, s3) => (.error e, s3)
              | (.ok defd, s3) => uploadLoop react image_data tb (fuel - 1) defd s3
      else if rsp = some RSP_UPLOAD_COMPLETE then
        (.ok (), sendCmd react s1 CMD_TRANSFER_COMPLETE [])
      else if rsp = some RSP_DATA_PRESENT then
        (.ok (), sendCmd react s1 CMD_TRANSFER_COMPLETE [])
      else if rsp = some RSP_COMMAND_ACK then
        uploadLoop react image_data tb (fuel - 1) none s1
      else if rsp = some RSP_PART_ACK ∨ rsp = some RSP_PART_ERROR then
        uploadLoop react image_data tb (fuel - 1) none s1
      else if rsp = some RSP_ERROR then (.error .protocolError, s1)
      else uploadLoop react image_data tb (fuel - 1) none s1
termination_by fuel
decreasing_by all_goals omega

/-- `upload_image` (equally the transfer phase of `BLEDisplay.upload`
after the connection is in place): compute the block count, send the
START_DATA_TRANSFER announcement, and run the main loop. -/
def upload_image (react : Reaction) (image_data : List Nat) (data_type : Nat)
    (script : List Notif) (fuel : Nat) : Except UploadErr Unit × EngineSt :=
  let s0 : EngineSt := { dev := { pending := [], script := script }, log := [] }
  uploadLoop react image_data (total_blocks image_data) fuel none
    (sendCmd react s0 CMD_START_DATA_TRANSFER (make_avail_data_info image_data data_type))

/-- A stub that never replies to host commands; all its notifications
come from its script. -/
def nullReact : Reaction := fun _ _ => []

/-- A stub that acknowledges host commands the way the protocol expects:
COMMAND_ACK in reply to ACK_READY and PART_ACK in reply to each
SEND_BLOCK_PART; its device-initiated events come from its script. -/
def ackStubReact : Reaction := fun cmd_id _ =>
  if cmd_id = CMD_ACK_READY then [cmd_packet RSP_COMMAND_ACK []]
  else if cmd_id = CMD_SEND_BLOCK_PART then [cmd_packet RSP_PART_ACK []]
  else []

/-! ## DATA_PRESENT short-circuit (C6) -/

/-- The stub script for C6: the device replies DATA_PRESENT immediately
after the START_DATA_TRANSFER announcement. -/
def c6_script : List Notif := [cmd_packet RSP_DATA_PRESENT []]

/-- C6: when the first notification after the announcement is
DATA_PRESENT, `upload` sends exactly one TRANSFER_COMPLETE, no
SEND_BLOCK_PART at all, and returns success. -/
theorem upload_data_present (image_data : List Nat) (data_type : Nat) :
    upload_image ackStubReact image_data data_type c6_script 8 =
      (.ok (),
       { dev := { pending := [], script := [] },
         log := [(CMD_START_DATA_TRANSFER, make_avail_data_info image_data data_type),
                 (CMD_TRANSFER_COMPLETE, [])] }) := by
  simp [upload_image, uploadLoop, sendCmd, devWait, ackStubReact, c6_script, parse_cmd,
    cmd_packet, CMD_START_DATA_TRANSFER, CMD_ACK_READY, CMD_SEND_BLOCK_PART,
    CMD_TRANSFER_COMPLETE, RSP_DATA_PRESENT, RSP_BLOCK_REQUEST, RSP_UPLOAD_COMPLETE,
    RSP_COMMAND_ACK, RSP_PART_ACK, RSP_PART_ERROR, RSP_ERROR]

/-! ## Part-send-and-ack exchange (C3) -/

/-- Initial engine state over a given stub script: nothing pending,
nothing sent yet. -/
def st0 (script : List Notif) : EngineSt :=
  { dev := { pending := [], script := script }, log := [] }

lemma parse_command_ack (payload : List Nat) :
    parse_cmd (some (cmd_packet RSP_COMMAND_ACK payload)) =
      (some RSP_COMMAND_ACK, payload) := rfl

lemma parse_part_error (payload : List Nat) :
    parse_cmd (some (cmd_packet RSP_PART_ERROR payload)) =
      (some RSP_PART_ERROR, payload) := rfl

lemma parse_part_ack (payload : List Nat) :
    parse_cmd (some (cmd_packet RSP_PART_ACK payload)) =
      (some RSP_PART_ACK, payload) := rfl

lemma parse_block_request (payload : List Nat) :
    parse_cmd (some (cmd_packet RSP_BLOCK_REQUEST payload)) =
      (some RSP_BLOCK_REQUEST, payload) := rfl

lemma parse_upload_complete (payload : List Nat) :
    parse_cmd (some (cmd_packet RSP_UPLOAD_COMPLETE payload)) =
      (some RSP_UPLOAD_COMPLETE, payload) := rfl

lemma parse_data_present (payload : List Nat) :
    parse_cmd (some (cmd_packet RSP_DATA_PRESENT payload)) =
      (some RSP_DATA_PRESENT, payload) := rfl

lemma parse_rsp_error (payload : List Nat) :
    parse_cmd (some (cmd_packet RSP_ERROR payload)) =
      (some RSP_ERROR, payload) := rfl

/-- Helper for C3: `n` consecutive PART_ERROR replies cause `n`
unconditional resends of the identical frame, with no cap and no
backoff, until a PART_ACK ends the exchange. -/
lemma partAckLoop_perr_replicate (frame : List Nat) (rest : List Notif) :
    ∀ (n : Nat) (l : List (Nat × List Nat)) (fuel : Nat), n < fuel →
      partAckLoop nullReact frame fuel
          { dev := { pending := [],
                     script := List.replicate n (cmd_packet RSP_PART_ERROR []) ++
                       cmd_packet RSP_PART_ACK [] :: rest },
            log := l } =
        (.ok none,
         { dev := { pending := [], script := rest },
           log := l ++ List.replicate n (CMD_SEND_BLOCK_PART, frame) }) := by
  intro n
  induction n with
  | zero =>
    intro l fuel hf
    have h0 : ¬ fuel = 0 := by omega
    unfold partAckLoop
    rw [dif_neg h0]
    simp [devWait, parse_part_ack]
  | succ n ih =>
    intro l fuel hf
    have h0 : ¬ fuel = 0 := by omega
    rw [List.replicate_succ]
    unfold partAckLoop
    rw [dif_neg h0]
    simp only [List.cons_append, devWait, parse_part_error]
    norm_num [RSP_PART_ACK, RSP_PART_ERROR]
    simp only [sendCmd, nullReact, List.append_nil]
    simp only [RSP_PART_ERROR, RSP_PART_ACK] at ih ⊢
    rw [ih (l ++ [(CMD_SEND_BLOCK_PART, frame)]) (fuel - 1) (by omega)]
    simp [List.replicate_succ, List.append_assoc]

/-- C3: after the part frame is sent, PART_ACK ends the exchange;
PART_ERROR causes the byte-identical frame to be resent (shown both for
one error and, uncapped, for any number `n` of consecutive errors);
COMMAND_ACK is ignored without resending; BLOCK_REQUEST, UPLOAD_COMPLETE
and DATA_PRESENT end the exchange early as a deferred event; RSP_ERROR
fails the transfer. -/
theorem send_part_wait_ack_dispatch (frame : List Nat) (rest : List Notif) :
    (send_part_wait_ack nullReact frame 5 (st0 (cmd_packet RSP_PART_ACK [] :: rest)) =
      (.ok none, { dev := { pending := [], script := rest },
                   log := [(CMD_SEND_BLOCK_PART, frame)] })) ∧
    (send_part_wait_ack nullReact frame 5
        (st0 (cmd_packet RSP_PART_ERROR [] :: cmd_packet RSP_PART_ACK [] :: rest)) =
      (.ok none, { dev := { pending := [], script := rest },
                   log := [(CMD_SEND_BLOCK_PART, frame),
                           (CMD_SEND_BLOCK_PART, frame)] })) ∧
    (∀ n, send_part_wait_ack nullReact frame (n + 2)
        (st0 (List.replicate n (cmd_packet RSP_PART_ERROR []) ++
          cmd_packet RSP_PART_ACK [] :: rest)) =
      (.ok none, { dev := { pending := [], script := rest },
                   log := List.replicate (n + 1) (CMD_SEND_BLOCK_PART, frame) })) ∧
    (send_part_wait_ack nullReact frame 5
        (st0 (cmd_packet RSP_COMMAND_ACK [] :: cmd_packet RSP_PART_ACK [] :: rest)) =
      (.ok none, { dev := { pending := [], script := rest },
                   log := [(CMD_SEND_BLOCK_PART, frame)] })) ∧
    (∀ payload, send_part_wait_ack nullReact frame 5
        (st0 (cmd_packet RSP_BLOCK_REQUEST payload :: rest)) =
      (.ok (some (cmd_packet RSP_BLOCK_REQUEST payload)),
       { dev := { pending := [], script := rest },
         log := [(CMD_SEND_BLOCK_PART, frame)] })) ∧
    (send_part_wait_ack nullReact frame 5
        (st0 (cmd_packet RSP_UPLOAD_COMPLETE [] :: rest)) =
      (.ok (some (cmd_packet RSP_UPLOAD_COMPLETE [])),
       { dev := { pending := [], script := rest },
         log := [(CMD_SEND_BLOCK_PART, frame)] })) ∧
    (send_part_wait_ack nullReact frame 5
        (st0 (cmd_packet RSP_DATA_PRESENT [] :: rest)) =
      (.ok (some (cmd_packet RSP_DATA_PRESENT [])),
       { dev := { pending := [], script := rest },
         log := [(CMD_SEND_BLOCK_PART, frame)] })) ∧
    (send_part_wait_ack nullReact frame 5 (st0 (cmd_packet RSP_ERROR [] :: rest)) =
      (.error .protocolError,
       { dev := { pending := [], script := rest },
         log := [(CMD_SEND_BLOCK_PART, frame)] })) := by
  refine ⟨?_, ?_, ?_, ?_, ?_, ?_, ?_, ?_⟩
  case refine_3 =>
    intro n
    unfold send_part_wait_ack
    rw [show st0 (List.replicate n (cmd_packet RSP_PART_ERROR []) ++
        cmd_packet RSP_PART_ACK [] :: rest) = st0 _ from rfl]
    have := partAckLoop_perr_replicate frame rest n [(CMD_SEND_BLOCK_PART, frame)]
      (n + 2) (by omega)
    simp only [st0, sendCmd, nullReact, List.append_nil, List.nil_append]
    rw [this]
    simp [List.replicate_succ]
  all_goals
    first
    | (intro payload
       simp [send_part_wait_ack, partAckLoop, st0, sendCmd, devWait, nullReact,
         parse_cmd, cmd_packet, CMD_SEND_BLOCK_PART, RSP_PART_ACK, RSP_PART_ERROR,
         RSP_COMMAND_ACK, RSP_BLOCK_REQUEST, RSP_UPLOAD_COMPLETE, RSP_DATA_PRESENT,
         RSP_ERROR])
    | simp [send_part_wait_ack, partAckLoop, st0, sendCmd, devWait, nullReact,
        parse_cmd, cmd_packet, CMD_SEND_BLOCK_PART, RSP_PART_ACK, RSP_PART_ERROR,
        RSP_COMMAND_ACK, RSP_BLOCK_REQUEST, RSP_UPLOAD_COMPLETE, RSP_DATA_PRESENT,
        RSP_ERROR]

/-! ## BLOCK_REQUEST validation in the main loop (C2) -/

/-- Script delivering a single BLOCK_REQUEST with the given payload. -/
def br_script (payload : List Nat) : List Notif :=
  [cmd_packet RSP_BLOCK_REQUEST payload]

/-- Script delivering a BLOCK_REQUEST with the given payload, then the
COMMAND_ACK that answers ACK_READY. -/
def br_ack_script (payload : List Nat) : List Notif :=
  [cmd_packet RSP_BLOCK_REQUEST payload, cmd_packet RSP_COMMAND_ACK []]

/-- C2: the block count used by the bound check is exactly ceil(N/4096);
a BLOCK_REQUEST payload shorter than 17 bytes fails the transfer as a
protocol violation; otherwise the block id is payload byte 9 and the
parts mask payload bytes 11..16, and a block id at or above the block
count fails the transfer as a protocol violation — in particular with an
empty image every well-formed BLOCK_REQUEST is rejected.  The final
conjunct exhibits the extraction: in the accepted case the engine sends
ACK_READY and then the part frames for exactly the decoded mask bits of
bytes 11..16, for the block named by byte 9. -/
theorem upload_block_request_validation (image_data payload : List Nat) :
    (image_data.length ≤ BLOCK_DATA_SIZE * total_blocks image_data ∧
      BLOCK_DATA_SIZE * total_blocks image_data < image_data.length + BLOCK_DATA_SIZE) ∧
    (payload.length < 17 →
      (upload_image nullReact image_data DEFAULT_DATA_TYPE (br_script payload) 8).1 =
        .error .invalidBlockRequest) ∧
    (17 ≤ payload.length → total_blocks image_data ≤ payload.getD 9 0 →
      (upload_image nullReact image_data DEFAULT_DATA_TYPE (br_script payload) 8).1 =
        .error (.outOfRangeBlock (payload.getD 9 0))) ∧
    (image_data.length = 0 → 17 ≤ payload.length →
      (upload_image nullReact image_data DEFAULT_DATA_TYPE (br_script payload) 8).1 =
        .error (.outOfRangeBlock (payload.getD 9 0))) ∧
    (17 ≤ payload.length → payload.getD 9 0 < total_blocks image_data →
      ∀ p rest, requested_parts_from_mask ((payload.drop 11).take 6) = p :: rest →
        upload_image nullReact image_data DEFAULT_DATA_TYPE (br_ack_script payload) 8 =
          (.error .notificationTimeout,
           { dev := { pending := [], script := [] },
             log := [(CMD_START_DATA_TRANSFER,
                        make_avail_data_info image_data DEFAULT_DATA_TYPE),
                     (CMD_ACK_READY, []),
                     (CMD_SEND_BLOCK_PART,
                        build_block_part image_data (payload.getD 9 0) p)] })) := by
  have hceil : image_data.length ≤ BLOCK_DATA_SIZE * total_blocks image_data ∧
      BLOCK_DATA_SIZE * total_blocks image_data < image_data.length + BLOCK_DATA_SIZE := by
    simp only [total_blocks, BLOCK_DATA_SIZE]
    omega
  have hout : 17 ≤ payload.length → total_blocks image_data ≤ payload.getD 9 0 →
      (upload_image nullReact image_data DEFAULT_DATA_TYPE (br_script payload) 8).1 =
        .error (.outOfRangeBlock (payload.getD 9 0)) := by
    intro h17 hge
    have hn : ¬ payload.length < 17 := by omega
    rw [List.getD_eq_getElem?_getD] at hge
    simp [upload_image, uploadLoop, sendCmd, devWait, nullReact, br_script,
      parse_block_request, hn, hge]
  refine ⟨hceil, ?_, hout, ?_, ?_⟩
  · intro h
    simp [upload_image, uploadLoop, sendCmd, devWait, nullReact, br_script,
      parse_block_request, h]
  · intro h0 h17
    refine hout h17 ?_
    have : total_blocks image_data = 0 := by
      simp [total_blocks, BLOCK_DATA_SIZE, h0]
    omega
  · intro h17 hlt p rest hparts
    have hn : ¬ payload.length < 17 := by omega
    have hn2 : ¬ total_blocks image_data ≤ payload.getD 9 0 := by omega
    rw [List.getD_eq_getElem?_getD] at hn2
    simp [upload_image, uploadLoop, readyAckLoop, sendParts, send_part_wait_ack,
      partAckLoop, sendCmd, devWait, nullReact, br_ack_script, parse_block_request,
      parse_command_ack, hparts, hn, hn2]

/-- C2 witness: concrete instances of each validation branch — a 0-byte
payload is rejected as invalid, a 17-byte payload naming block 7 is
rejected out of range on a 1-byte image (1 block), every well-formed
BLOCK_REQUEST is rejected on the empty image, and on the accepted path
the part frame for block 0, part 0 is sent. -/
theorem upload_block_request_validation_witness :
    ((upload_image nullReact [9] DEFAULT_DATA_TYPE (br_script []) 8).1 =
      .error .invalidBlockRequest) ∧
    ((upload_image nullReact [9] DEFAULT_DATA_TYPE
        (br_script [0, 0, 0, 0, 0, 0, 0, 0, 0, 7, 1, 0, 0, 0, 0, 0, 0]) 8).1 =
      .error (.outOfRangeBlock 7)) ∧
    ((upload_image nullReact [] DEFAULT_DATA_TYPE
        (br_script [0, 0, 0, 0, 0, 0, 0, 0, 0, 0, 1, 255, 0, 0, 0, 0, 0]) 8).1 =
      .error (.outOfRangeBlock 0)) ∧
    (upload_image nullReact [9] DEFAULT_DATA_TYPE
        (br_ack_script [0, 0, 0, 0, 0, 0, 0, 0, 0, 0, 1, 1, 0, 0, 0, 0, 0]) 8 =
      (.error .notificationTimeout,
       { dev := { pending := [], script := [] },
         log := [(CMD_START_DATA_TRANSFER, make_avail_data_info [9] DEFAULT_DATA_TYPE),
                 (CMD_ACK_READY, []),
                 (CMD_SEND_BLOCK_PART, build_block_part [9] 0 0)] })) :=
  ⟨(upload_block_request_validation [9] []).2.1 (by norm_num),
   (upload_block_request_validation [9]
      [0, 0, 0, 0, 0, 0, 0, 0, 0, 7, 1, 0, 0, 0, 0, 0, 0]).2.2.1
     (by norm_num) (by norm_num [total_blocks, BLOCK_DATA_SIZE]),
   (upload_block_request_validation []
      [0, 0, 0, 0, 0, 0, 0, 0, 0, 0, 1, 255, 0, 0, 0, 0, 0]).2.2.2.1
     (by norm_num) (by norm_num),
   (upload_block_request_validation [9]
      [0, 0, 0, 0, 0, 0, 0, 0, 0, 0, 1, 1, 0, 0, 0, 0, 0]).2.2.2.2
     (by norm_num) (by norm_num [total_blocks, BLOCK_DATA_SIZE]) 0 [] (by decide)⟩

/-! ## Full-block happy path (C1) -/

/-- The BLOCK_REQUEST payload of the C1 stub: 9 opaque zero bytes, block
id 0 at byte 9, type byte at 10, and an all-ones 6-byte mask at bytes
11..16 requesting all 18 parts. -/
def c1_request_payload : List Nat :=
  [0, 0, 0, 0, 0, 0, 0, 0, 0, 0, 1, 255, 255, 255, 255, 255, 255]

/-- The C1 stub's scripted device events: a BLOCK_REQUEST for block 0
with all 18 parts, then UPLOAD_COMPLETE. -/
def c1_script : List Notif :=
  [cmd_packet RSP_BLOCK_REQUEST c1_request_payload,
   cmd_packet RSP_UPLOAD_COMPLETE []]

lemma c1_mask_parts : requested_parts_from_mask [255, 255, 255, 255, 255, 255] =
    [0, 1, 2, 3, 4, 5, 6, 7, 8, 9, 10, 11, 12, 13, 14, 15, 16, 17] := by decide

/-- C1: with a stub that scripts BLOCK_REQUEST(block 0, mask = all 18
parts) then UPLOAD_COMPLETE, and that acknowledges host commands as the
protocol requires (COMMAND_ACK answering ACK_READY, PART_ACK answering
each part), `upload` sends exactly 18 SEND_BLOCK_PART commands — parts 0
through 17 of block 0, in order — followed by exactly one
TRANSFER_COMPLETE, and returns success. -/
theorem upload_full_block_transfer (image_data : List Nat)
    (h : 1 ≤ image_data.length) :
    upload_image ackStubReact image_data DEFAULT_DATA_TYPE c1_script 8 =
      (.ok (),
       { dev := { pending := [], script := [] },
         log := [(CMD_START_DATA_TRANSFER,
                    make_avail_data_info image_data DEFAULT_DATA_TYPE),
                 (CMD_ACK_READY, []),
                 (CMD_SEND_BLOCK_PART, build_block_part image_data 0 0),
                 (CMD_SEND_BLOCK_PART, build_block_part image_data 0 1),
                 (CMD_SEND_BLOCK_PART, build_block_part image_data 0 2),
                 (CMD_SEND_BLOCK_PART, build_block_part image_data 0 3),
                 (CMD_SEND_BLOCK_PART, build_block_part image_data 0 4),
                 (CMD_SEND_BLOCK_PART, build_block_part image_data 0 5),
                 (CMD_SEND_BLOCK_PART, build_block_part image_data 0 6),
                 (CMD_SEND_BLOCK_PART, build_block_part image_data 0 7),
                 (CMD_SEND_BLOCK_PART, build_block_part image_data 0 8),
                 (CMD_SEND_BLOCK_PART, build_block_part image_data 0 9),
                 (CMD_SEND_BLOCK_PART, build_block_part image_data 0 10),
                 (CMD_SEND_BLOCK_PART, build_block_part image_data 0 11),
                 (CMD_SEND_BLOCK_PART, build_block_part image_data 0 12),
                 (CMD_SEND_BLOCK_PART, build_block_part image_data 0 13),
                 (CMD_SEND_BLOCK_PART, build_block_part image_data 0 14),
                 (CMD_SEND_BLOCK_PART, build_block_part image_data 0 15),
                 (CMD_SEND_BLOCK_PART, build_block_part image_data 0 16),
                 (CMD_SEND_BLOCK_PART, build_block_part image_data 0 17),
                 (CMD_TRANSFER_COMPLETE, [])] }) := by
  have hn2 : ¬ total_blocks image_data ≤ 0 := by
    simp only [total_blocks, BLOCK_DATA_SIZE]
    omega
  simp [upload_image, uploadLoop, readyAckLoop, sendParts, send_part_wait_ack,
    partAckLoop, sendCmd, devWait, ackStubReact, c1_script, c1_request_payload,
    parse_cmd, cmd_packet, c1_mask_parts, hn2, CMD_START_DATA_TRANSFER,
    CMD_ACK_READY, CMD_SEND_BLOCK_PART, CMD_TRANSFER_COMPLETE, RSP_COMMAND_ACK,
    RSP_PART_ERROR, RSP_PART_ACK, RSP_BLOCK_REQUEST, RSP_UPLOAD_COMPLETE,
    RSP_DATA_PRESENT, RSP_ERROR]

/-- C1 witness at a concrete nonempty image. -/
theorem upload_full_block_transfer_witness :
    (1 ≤ ([1, 2, 3] : List Nat).length) ∧
    (upload_image ackStubReact [1, 2, 3] DEFAULT_DATA_TYPE c1_script 8).1 = .ok () :=
  ⟨by norm_num, by rw [upload_full_block_transfer [1, 2, 3] (by norm_num)]⟩

/-! ## Connection retry loop (C5, `ble_display.py` lines 209-234)

The transport stub is a pair of oracles indexed by call number:
`scanFound i` says whether the i-th `find_device` scan sees the target,
and `connectRes i` is `none` when the i-th `device.connect` succeeds and
`some e` when it raises error `e` (errors are opaque naturals).  Scans,
connect attempts and inter-attempt sleeps are recorded as events. -/

inductive ConnEv where
  | scanEv (found : Bool)
  | connectEv (attempt : Nat)
  | sleepEv (ms : Nat)
deriving DecidableEq

structure ConnSt where
  device : Bool
  scanIdx : Nat
  connIdx : Nat
  lastError : Option Nat
  events : List ConnEv
deriving DecidableEq

/-- The `for attempt in range(1, connect_retries + 1)` loop of `upload`:
scan when no device handle is cached (sleeping between attempts on a
miss), otherwise try to connect; a connect failure records the error,
sleeps and drops the device handle unless this was the last attempt.
`rem` counts the attempts still available, so the Python loop variable is
`attempt = retries - rem + 1` at the head of each iteration. -/
def connect_attempts (scanFound : Nat → Bool) (connectRes : Nat → Option Nat)
    (retries delay_ms : Nat) : Nat → ConnSt → Bool × ConnSt
  | 0, s => (false, s)
  | rem + 1, s =>
    let attempt := retries - rem
    let s1 :=
      if s.device then s
      else
        { s with
          scanIdx := s.scanIdx + 1
          device := scanFound s.scanIdx
          events := s.events ++ [ConnEv.scanEv (scanFound s.scanIdx)] }
    if s1.device then
      let s2 :=
        { s1 with
          connIdx := s1.connIdx + 1
          events := s1.events ++ [ConnEv.connectEv attempt] }
      match connectRes s1.connIdx with
      | none => (true, s2)
      | some e =>
        let s3 := { s2 with lastError := some e }
        if attempt < retries then
          connect_attempts scanFound connectRes retries delay_ms rem
            { s3 with
              events := s3.events ++ [ConnEv.sleepEv delay_ms]
              device := false }
        else
          connect_attempts scanFound connectRes retries delay_ms rem s3
    else
      if attempt < retries then
        connect_attempts scanFound connectRes retries delay_ms rem
          { s1 with events := s1.events ++ [ConnEv.sleepEv delay_ms] }
      else
        connect_attempts scanFound connectRes retries delay_ms rem s1

def initConnSt : ConnSt :=
  { device := false, scanIdx := 0, connIdx := 0, lastError := none, events := [] }

/-- Outcome of the acquisition phase: either connected, or the
`RuntimeError("Unable to connect after retries: %s" % last_error)` raise,
carrying the last underlying connect error. -/
inductive ConnectOutcome where
  | connected
  | connectionFailure (lastError : Option Nat)
deriving DecidableEq

/-- The device-acquisition phase of `upload`: run the retry loop over the
full budget and raise ConnectionFailure with the last error if no
connection was made. -/
def upload_connect (scanFound : Nat → Bool) (connectRes : Nat → Option Nat)
    (retries delay_ms : Nat) : ConnectOutcome × ConnSt :=
  let r := connect_attempts scanFound connectRes retries delay_ms retries initConnSt
  if r.1 then (ConnectOutcome.connected, r.2)
  else (ConnectOutcome.connectionFailure r.2.lastError, r.2)

/-- The event trace of `rem` all-failing attempts starting after `c`
earlier connect calls: scan (hit), connect, and a sleep between
consecutive attempts but not after the last. -/
def failPatt (delay_ms : Nat) : Nat → Nat → List ConnEv
  | _, 0 => []
  | c, rem + 1 =>
    ConnEv.scanEv true :: ConnEv.connectEv (c + 1) ::
      (if rem = 0 then []
       else ConnEv.sleepEv delay_ms :: failPatt delay_ms (c + 1) rem)

def isConnectEv : ConnEv → Bool
  | ConnEv.connectEv _ => true
  | _ => false

def isSleepEv : ConnEv → Bool
  | ConnEv.sleepEv _ => true
  | _ => false

lemma failPatt_filter_connect (delay_ms : Nat) :
    ∀ (rem c : Nat), (failPatt delay_ms c rem).filter isConnectEv =
      (List.range rem).map (fun i => ConnEv.connectEv (c + 1 + i)) := by
  intro rem
  induction rem with
  | zero => intro c; simp [failPatt]
  | succ rem ih =>
    intro c
    rcases Nat.eq_zero_or_pos rem with hr | hr
    · subst hr
      simp [failPatt, isConnectEv, List.range_succ]
    · have hne : ¬ rem = 0 := by omega
      rw [List.range_succ_eq_map]
      simp [failPatt, hne, isConnectEv, isSleepEv, ih (c + 1), List.map_map,
        Function.comp]
      intro a _
      omega

lemma failPatt_filter_sleep (delay_ms : Nat) :
    ∀ (rem c : Nat), (failPatt delay_ms c rem).filter isSleepEv =
      List.replicate (rem - 1) (ConnEv.sleepEv delay_ms) := by
  intro rem
  induction rem with
  | zero => intro c; simp [failPatt]
  | succ rem ih =>
    intro c
    rcases Nat.eq_zero_or_pos rem with hr | hr
    · subst hr
      simp [failPatt, isSleepEv]
    · have hne : ¬ rem = 0 := by omega
      have hpred : rem + 1 - 1 = (rem - 1) + 1 := by omega
      simp [failPatt, hne, isConnectEv, isSleepEv, ih (c + 1), hpred,
        List.replicate_succ]

/-- Core induction for C5: with scans always hitting and every connect
failing, the loop consumes its whole budget, makes one connect call per
attempt, records the interleaved scan/connect/sleep trace, and ends with
the error of the last connect call. -/
lemma connect_attempts_all_fail (errs : Nat → Nat) (retries delay_ms : Nat) :
    ∀ (rem : Nat) (s : ConnSt), s.device = false → s.connIdx + rem = retries →
      connect_attempts (fun _ => true) (fun i => some (errs i)) retries delay_ms rem s =
        (false,
         { device := decide (0 < rem),
           scanIdx := s.scanIdx + rem,
           connIdx := s.connIdx + rem,
           lastError := if rem = 0 then s.lastError else some (errs (s.connIdx + rem - 1)),
           events := s.events ++ failPatt delay_ms s.connIdx rem }) := by
  intro rem
  induction rem with
  | zero =>
    intro s hdev _
    cases s
    simp_all [connect_attempts, failPatt]
  | succ rem ih =>
    intro s hdev halign
    have hattempt : retries - rem = s.connIdx + 1 := by omega
    have hlt : s.connIdx + 1 < retries ↔ 0 < rem := by omega
    simp only [connect_attempts, hdev, if_false, hattempt]
    rcases Nat.eq_zero_or_pos rem with hr | hr
    · subst hr
      have hnlt : ¬ s.connIdx + 1 < retries := by omega
      simp [connect_attempts, hnlt, failPatt, List.append_assoc]
    · have hylt : s.connIdx + 1 < retries := by omega
      have hne : ¬ rem = 0 := by omega
      have harg : s.connIdx + 1 + rem - 1 = s.connIdx + (rem + 1) - 1 := by omega
      have hscan : s.scanIdx + 1 + rem = s.scanIdx + (rem + 1) := by omega
      have hconn : s.connIdx + 1 + rem = s.connIdx + (rem + 1) := by omega
      simp only [hylt, if_true]
      rw [ih _ (by simp) (by simp; omega)]
      simp [hne, hr, failPatt, harg, hscan, hconn, List.append_assoc]

/-- C5: with scans succeeding and every connect attempt failing, `upload`
makes exactly `retries` connect attempts (numbered 1..retries), sleeps
`delay_ms` exactly once between consecutive attempts (retries - 1 sleeps
in total, none after the last attempt), and fails with ConnectionFailure
carrying the error of the last connect call. -/
theorem upload_connect_retry_exhaustion (retries delay_ms : Nat) (errs : Nat → Nat)
    (h : 1 ≤ retries) :
    (upload_connect (fun _ => true) (fun i => some (errs i)) retries delay_ms).1 =
      ConnectOutcome.connectionFailure (some (errs (retries - 1))) ∧
    ((upload_connect (fun _ => true) (fun i => some (errs i)) retries
        delay_ms).2.events.filter isConnectEv =
      (List.range retries).map (fun i => ConnEv.connectEv (1 + i))) ∧
    ((upload_connect (fun _ => true) (fun i => some (errs i)) retries
        delay_ms).2.events.filter isSleepEv =
      List.replicate (retries - 1) (ConnEv.sleepEv delay_ms)) ∧
    (upload_connect (fun _ => true) (fun i => some (errs i)) retries
        delay_ms).2.events = failPatt delay_ms 0 retries := by
  have hmain := connect_attempts_all_fail errs retries delay_ms retries initConnSt
    rfl (by simp [initConnSt])
  have hne : ¬ retries = 0 := by omega
  have hpos : 0 < retries := by omega
  have hev : upload_connect (fun _ => true) (fun i => some (errs i)) retries delay_ms =
      (ConnectOutcome.connectionFailure (some (errs (retries - 1))),
       { device := true, scanIdx := retries, connIdx := retries,
         lastError := some (errs (retries - 1)),
         events := failPatt delay_ms 0 retries }) := by
    unfold upload_connect
    rw [hmain]
    simp [initConnSt, hne, hpos]
  rw [hev]
  refine ⟨rfl, ?_, ?_, rfl⟩
  · rw [failPatt_filter_connect]
  · rw [failPatt_filter_sleep]

/-- C5 witness: two attempts with distinct errors 40 and 41 end in a
ConnectionFailure carrying error 41, after connects numbered 1 and 2 with
a single sleep of 7 ms between them. -/
theorem upload_connect_retry_exhaustion_witness :
    (upload_connect (fun _ => true) (fun i => some (40 + i)) 2 7).1 =
      ConnectOutcome.connectionFailure (some 41) ∧
    (upload_connect (fun _ => true) (fun i => some (40 + i)) 2 7).2.events =
      [ConnEv.scanEv true, ConnEv.connectEv 1, ConnEv.sleepEv 7,
       ConnEv.scanEv true, ConnEv.connectEv 2] :=
  ⟨(upload_connect_retry_exhaustion 2 7 (fun i => 40 + i) (by norm_num)).1,
   ((upload_connect_retry_exhaustion 2 7 (fun i => 40 + i) (by norm_num)).2.2.2).trans
     (by decide)⟩

end EPaper
